import Mathlib

/-!
Verification of the Laama Chat repository's session/storage and
retrieval-mode core.

Shallow embedding of:
- `chats_db.py`: the SQLite-backed persistence store (chats table,
  settings table, default-model setting);
- `laama_chat.py`: the plain-chat app variant (turn dispatch, file upload,
  startup model sync, database initialization wrapper);
- `laama_chat_rag.py`: the retrieval-augmented app variant (RAG state
  machine, retrieval turn dispatch).

External collaborators (SQLite, the json module, Streamlit, ollama,
llama_index) are modelled by their contracts: SQLite rows become Lean
lists, a raised `sqlite3.Error` becomes an injected fault flag or an
`Except.error`, and `json.dumps`/`json.loads` — an exact round trip of the
Python standard library on lists of role/content records — is modelled by
storing the message list itself in the row.
-/

namespace LaamaChat

/-- A chat message: a role (`user`, `assistant` or `system`) and text
content, as the dict `\x7b"role": r, "content": c\x7d` of the Python code. -/
structure Message where
  role : String
  content : String
deriving Repr, DecidableEq

/-- One row of the `chats` table of `chats_db.py`:
`id INTEGER PRIMARY KEY AUTOINCREMENT, chat_name TEXT, messages TEXT, model TEXT`.
The `messages` column holds `json.dumps(messages)`; since `json.loads`
inverts `json.dumps` exactly on lists of role/content records, the row is
modelled as holding the message list. -/
structure ChatRow where
  id : Nat
  chat_name : String
  messages : List Message
  model : String
deriving Repr, DecidableEq

/-- The state of the SQLite database file `chats.db`: whether the two
tables exist, the rows of `chats`, the next AUTOINCREMENT id, and the rows
of `settings` (`key TEXT PRIMARY KEY, value TEXT`) as an association
list whose keys are unique. -/
structure DB where
  chatsTableExists : Bool
  settingsTableExists : Bool
  chats : List ChatRow
  nextId : Nat
  settings : List (String × String)
deriving Repr, DecidableEq

/-- A database file that does not exist yet: SQLite creates it empty on
first connect, and AUTOINCREMENT ids start at 1. -/
def emptyDB : DB :=
  { chatsTableExists := false
    settingsTableExists := false
    chats := []
    nextId := 1
    settings := [] }

/-- `DEFAULT_MODEL = 'llama3.1'` of `chats_db.py`. -/
def DEFAULT_MODEL : String := "llama3.1"

/-- `SELECT value FROM settings WHERE key = ?` followed by `fetchone`:
the value of the first row with the given key, if any. -/
def settingsLookup (settings : List (String × String)) (key : String) :
    Option String :=
  (settings.find? (fun kv => kv.1 == key)).map (fun kv => kv.2)

/-- `INSERT OR IGNORE INTO settings (key, value) VALUES (?, ?)`: appends
the row only when no row with that key exists. -/
def insertOrIgnoreSetting (settings : List (String × String))
    (key value : String) : List (String × String) :=
  match settings.find? (fun kv => kv.1 == key) with
  | some _ => settings
  | none => settings ++ [(key, value)]

/-- The fault-free body of `create_database` of `chats_db.py`: the two
`CREATE TABLE IF NOT EXISTS` statements ensure the tables exist, and the
`INSERT OR IGNORE` seeds the `default_model` row when absent. -/
def createDB (db : DB) : DB :=
  { db with
    chatsTableExists := true
    settingsTableExists := true
    settings := insertOrIgnoreSetting db.settings "default_model" "llama3.1" }

/-- `create_database` of `chats_db.py` (lines 19-53). `fault = true`
injects a `sqlite3.Error` from any of the statements; the `except` clause
logs it and re-raises (`raise`), modelled as `Except.error`. -/
def create_database (fault : Bool) (db : DB) : Except String DB :=
  if fault then Except.error "sqlite3.Error"
  else Except.ok (createDB db)

/-- `initialize_database` of `laama_chat.py` (lines 133-139) and
`laama_chat_rag.py` (lines 166-172): calls `create_database` inside
`try`, and the `except Exception` clause only logs — it does not
re-raise, so the function always returns normally and the database state
is whatever the failed call left behind (unchanged here, since the fault
is injected before any statement takes effect). The codomain is `Except`
to make "no exception escapes" visible: the error constructor is never
produced. -/
def initialize_database (fault : Bool) (db : DB) : Except String DB :=
  match create_database fault db with
  | Except.ok db2 => Except.ok db2
  | Except.error _ => Except.ok db

/-- `save_chat` of `chats_db.py` (lines 55-66), fault-free path:
`INSERT INTO chats (chat_name, messages, model) VALUES (?, ?, ?)` with
`json.dumps(messages)`. AUTOINCREMENT assigns the next id to the new row;
the pair returned is the new database state and that assigned id. -/
def save_chat (db : DB) (chat_name : String) (messages : List Message)
    (model : String) : DB × Nat :=
  ({ db with
     chats := db.chats ++ [{ id := db.nextId, chat_name := chat_name,
                             messages := messages, model := model }]
     nextId := db.nextId + 1 },
   db.nextId)

/-- `load_chats` of `chats_db.py` (lines 68-79), fault-free path:
`SELECT id, chat_name, model FROM chats` — all rows, message bodies
excluded. -/
def load_chats (db : DB) : List (Nat × String × String) :=
  db.chats.map (fun c => (c.id, c.chat_name, c.model))

/-- `load_chat_messages` of `chats_db.py` (lines 81-98), fault-free path:
`SELECT messages, model FROM chats WHERE id = ?` with `fetchone`; on a
row, `json.loads` recovers the list and `(True, messages, model)` is
returned; on no row, `(False, None, None)`. -/
def load_chat_messages (db : DB) (chat_id : Nat) :
    Bool × Option (List Message) × Option String :=
  match db.chats.find? (fun c => c.id == chat_id) with
  | some row => (true, some row.messages, some row.model)
  | none => (false, none, none)

/-- `delete_chat` of `chats_db.py` (lines 100-110), fault-free path:
`DELETE FROM chats WHERE id = ?` removes every row with that id and
raises nothing whether or not one existed. -/
def delete_chat (db : DB) (chat_id : Nat) : DB :=
  { db with chats := db.chats.filter (fun c => c.id != chat_id) }

/-- `get_default_model` of `chats_db.py` (lines 112-122): reads the
`default_model` row; returns its value when present, `DEFAULT_MODEL` when
absent (`result[0] if result else DEFAULT_MODEL`), and `DEFAULT_MODEL`
when a `sqlite3.Error` is raised (the `except` clause returns instead of
re-raising, so the function never raises). `fault = true` injects the
`sqlite3.Error`. -/
def get_default_model (fault : Bool) (db : DB) : String :=
  if fault then DEFAULT_MODEL
  else
    match settingsLookup db.settings "default_model" with
    | some v => v
    | none => DEFAULT_MODEL

/-- `set_default_model` of `chats_db.py` (lines 124-134), fault-free path:
`UPDATE settings SET value = ? WHERE key = "default_model"` — rewrites the
value of every row whose key matches and inserts nothing when none does. -/
def set_default_model (db : DB) (model : String) : DB :=
  { db with
    settings := db.settings.map
      (fun kv => if kv.1 == "default_model" then (kv.1, model) else kv) }

/-- `MODEL_MAPPING` of `laama_chat.py` and `laama_chat_rag.py`: display
name to internal model name, in insertion order. -/
def MODEL_MAPPING : List (String × String) :=
  [("Llama 3.1", "llama3.1"), ("Gemma 2", "gemma2")]

/-- `next((name for name, value in MODEL_MAPPING.items() if value == default_model), "Llama 3.1")`:
the display name of a model id, or `"Llama 3.1"` when the id is not a
mapping value. -/
def displayNameFor (modelId : String) : String :=
  match MODEL_MAPPING.find? (fun p => p.2 == modelId) with
  | some p => p.1
  | none => "Llama 3.1"

/-- `MODEL_MAPPING[selected_model_display_name]`: the internal model name
of a display name (the selectbox only yields keys of the mapping, so the
default branch is unreachable in the app). -/
def modelForDisplay (display : String) : String :=
  match MODEL_MAPPING.find? (fun p => p.1 == display) with
  | some p => p.2
  | none => ""

/-- The model-selector block of `main` (`laama_chat.py` lines 177-196,
`laama_chat_rag.py` lines 210-226) on the startup render, where no user
interaction has happened yet so the selectbox returns the option at the
index it was given, `default_model_display_name`:
reads the stored default, resolves the display name with its fallback,
maps it back to an internal name, and calls `set_default_model` when the
resolved name differs from the stored default. -/
def startupModelSync (db : DB) : DB :=
  let default_model := get_default_model false db
  let display := displayNameFor default_model
  let selected := modelForDisplay display
  if selected != default_model then set_default_model db selected else db

/-- The degraded reply of `get_ai_response` in both app variants. -/
def degradedReply : String := "I'm sorry, I couldn't process your request."

/-- A user-role message as built at the chat-input handler. -/
def userMsg (content : String) : Message := { role := "user", content := content }

/-- An assistant-role message as appended after generation. -/
def assistantMsg (content : String) : Message :=
  { role := "assistant", content := content }

/-- A system-role message as appended by the file uploader of
`laama_chat.py`. -/
def systemMsg (content : String) : Message :=
  { role := "system", content := content }

/-- `get_ai_response` of `laama_chat.py` (lines 64-75) and
`laama_chat_rag.py` (lines 80-90): calls `ollama.chat(model, messages)` —
here an explicit backend parameter returning either the reply text or a
raised exception — and returns the reply on success or the degraded
string from the `except` clause on any exception. -/
def get_ai_response (backend : String → List Message → Except String String)
    (messages : List Message) (model : String) : String :=
  match backend model messages with
  | Except.ok content => content
  | Except.error _ => degradedReply

/-- The chat-input handler of `laama_chat.py` `main` (lines 265-273):
appends the user message to `st.session_state.messages`, calls
`get_ai_response` on the appended sequence, and appends the assistant
message. Returns the message sequence after the turn. -/
def handleUserTurn (backend : String → List Message → Except String String)
    (model : String) (messages : List Message) (prompt : String) :
    List Message :=
  let messages1 := messages ++ [userMsg prompt]
  let ai_response := get_ai_response backend messages1 model
  messages1 ++ [assistantMsg ai_response]

/-- Outcome of one turn of the RAG variant: the message sequence held in
session state when the handler finishes or aborts, and the exception that
escaped the handler, if any. -/
structure TurnOutcome where
  messages : List Message
  propagated : Option String
deriving Repr, DecidableEq

/-- The chat-input handler of `laama_chat_rag.py` `main` (lines 300-317):
appends the user message, then — when `use_rag` is set — queries the
index with the prompt (`query_engine.query(prompt)`); this call stands in
no `try` block, so an index/query exception escapes the handler with the
user message already appended. When `use_rag` is not set it calls
`get_ai_response`, whose own `try` contains any backend exception. The
query backend parameter models `as_query_engine().query`. -/
def handleUserTurnRag (queryBackend : String → Except String String)
    (backend : String → List Message → Except String String)
    (use_rag : Bool) (model : String) (messages : List Message)
    (prompt : String) : TurnOutcome :=
  let messages1 := messages ++ [userMsg prompt]
  if use_rag then
    match queryBackend prompt with
    | Except.ok resp =>
        { messages := messages1 ++ [assistantMsg resp], propagated := none }
    | Except.error e => { messages := messages1, propagated := some e }
  else
    { messages := messages1 ++
        [assistantMsg (get_ai_response backend messages1 model)]
      propagated := none }

/-- The file-uploader block of `laama_chat.py` `main` (lines 249-257), one
script rerun with a file attached: when the extracted text is non-empty
(Python truthiness of `if file_content:`), a system message holding the
full text is appended to the sequence; otherwise only a warning is shown. -/
def processUpload (file_content : String) (messages : List Message) :
    List Message :=
  if file_content != "" then messages ++ [systemMsg file_content]
  else messages

/-- RAG-side session state of `laama_chat_rag.py`. `initialize_llamaindex`
carries `@st.cache_resource`, so every call — including the ones inside
`clear_index` — returns the one process-wide `VectorStoreIndex` object
created on the first call; `st.session_state.index` therefore always
aliases that cached object, and `indexDocs` lists the documents that have
been inserted into it. `use_rag` is `st.session_state.use_rag`. -/
structure RagState where
  indexDocs : List String
  use_rag : Bool
deriving Repr, DecidableEq

/-- State on the first script run: `initialize_llamaindex` builds
`VectorStoreIndex([])` (empty) and `use_rag` is initialized to `False`. -/
def initialRagState : RagState := { indexDocs := [], use_rag := false }

/-- `clear_index` of `laama_chat_rag.py` (lines 64-67):
`st.session_state.index = initialize_llamaindex()` re-fetches the
`@st.cache_resource`-cached index — the same object, its inserted
documents intact — and sets `use_rag = False`. The documents are NOT
discarded. -/
def clear_index (s : RagState) : RagState := { s with use_rag := false }

/-- The document-lifecycle events of the RAG variant: a file attach
carrying the extracted text, a file removal (`on_file_change` with the
uploader empty, which calls `clear_index`), and the New Chat button
(which calls `clear_index`). -/
inductive RagEvent where
  | attach (text : String)
  | detach
  | newChat
deriving Repr, DecidableEq

/-- The uploader block of `laama_chat_rag.py` `main` (lines 283-292): a
present file is processed only when `use_rag` is not yet set; non-empty
extracted text is inserted into the index (`st.session_state.index.insert`)
and `use_rag` becomes `True`; empty text only warns. -/
def handleAttach (s : RagState) (text : String) : RagState :=
  if s.use_rag then s
  else if text != "" then
    { indexDocs := s.indexDocs ++ [text], use_rag := true }
  else s

/-- One document-lifecycle event applied to the RAG session state, per
`laama_chat_rag.py` lines 64-78 and 237-241 and 283-292. -/
def stepRag (s : RagState) (e : RagEvent) : RagState :=
  match e with
  | RagEvent.attach text => handleAttach s text
  | RagEvent.detach => clear_index s
  | RagEvent.newChat => clear_index s

/-- A finite sequence of document-lifecycle events applied in order. -/
def runRag (s : RagState) (es : List RagEvent) : RagState :=
  es.foldl stepRag s

/-- A chat backend whose `ollama.chat` call always raises, as when the
ollama server is unreachable. -/
def failingBackend : String → List Message → Except String String :=
  fun _ _ => Except.error "ConnectionError"

/-- A chat backend that always answers. -/
def okBackend : String → List Message → Except String String :=
  fun _ _ => Except.ok "Sure, where to?"

/-- A retrieval query backend whose `query` call always raises, as on an
index or query fault. -/
def failingQuery : String → Except String String :=
  fun _ => Except.error "index fault"

/-- A database whose `default_model` row holds the empty string — a
storage state a foreign writer can produce, since the app never validates
the stored value on read. -/
def emptyValueDB : DB :=
  { chatsTableExists := true
    settingsTableExists := true
    chats := []
    nextId := 1
    settings := [("default_model", "")] }

/-- A database whose stored default is not one of the two supported
identifiers. -/
def invalidDefaultDB : DB :=
  { chatsTableExists := true
    settingsTableExists := true
    chats := []
    nextId := 1
    settings := [("default_model", "mistral")] }

/-- Attach a first document, remove it, attach a second one. -/
def attachDetachAttach : List RagEvent :=
  [RagEvent.attach "doc1", RagEvent.detach, RagEvent.attach "doc2"]

/-! ## Helper lemmas -/

/-- Finding a key after `INSERT OR IGNORE` of that key always succeeds. -/
theorem insertOrIgnore_find (s : List (String × String)) (k v : String) :
    ∃ kv0, (insertOrIgnoreSetting s k v).find? (fun kv => kv.1 == k) = some kv0 := by
  cases h : s.find? (fun kv => kv.1 == k) with
  | some kv0 => exact ⟨kv0, by simp [insertOrIgnoreSetting, h]⟩
  | none => exact ⟨(k, v), by simp [insertOrIgnoreSetting, h]⟩

/-- `INSERT OR IGNORE` of a key that is already present changes nothing. -/
theorem insertOrIgnore_of_find (s : List (String × String)) (k v : String)
    (kv0 : String × String) (h : s.find? (fun kv => kv.1 == k) = some kv0) :
    insertOrIgnoreSetting s k v = s := by
  simp [insertOrIgnoreSetting, h]

/-- After the `UPDATE ... WHERE key = ?` of `set_default_model`, the
row the key finds holds the new value. -/
theorem find_update (s : List (String × String)) (key m : String)
    (kv0 : String × String) (h : s.find? (fun kv => kv.1 == key) = some kv0) :
    (s.map (fun kv => if kv.1 == key then (kv.1, m) else kv)).find?
      (fun kv => kv.1 == key) = some (kv0.1, m) := by
  have hp := List.find?_some h
  have hp2 : kv0.1 = key := by simpa using hp
  have hpf : ((fun kv : String × String => kv.1 == key) ∘
      (fun kv : String × String => if kv.1 == key then (kv.1, m) else kv)) =
      fun kv : String × String => kv.1 == key := by
    funext kv
    simp only [Function.comp_apply]
    split <;> rfl
  rw [List.find?_map, hpf, h]
  simp [hp2]

/-! ## Claim theorems -/

/-- Claim C1: for every message sequence M and model identifier X, saving
a chat via `save_chat(name, M, X)` and then calling `load_chat_messages`
with the identifier assigned to that new record returns `(True, M, X)` —
the message sequence and model identifier are recovered exactly as saved.
The hypothesis is the AUTOINCREMENT invariant of the `chats` table: every
stored id is below the next id to be assigned. -/
theorem save_load_round_trip (db : DB) (name : String) (M : List Message)
    (X : String) (h : ∀ c ∈ db.chats, c.id < db.nextId) :
    load_chat_messages (save_chat db name M X).1 (save_chat db name M X).2 =
      (true, some M, some X) := by
  have hnone : db.chats.find? (fun c => c.id == db.nextId) = none :=
    List.find?_eq_none.mpr fun c hc => by
      simpa using Nat.ne_of_lt (h c hc)
  simp [save_chat, load_chat_messages, hnone]

/-- Witness for C1: the round trip at a concrete database, chat name,
message list and model. -/
theorem save_load_round_trip_witness :
    load_chat_messages
      (save_chat emptyDB "Trip Planning" [userMsg "Plan a trip"] "llama3.1").1
      (save_chat emptyDB "Trip Planning" [userMsg "Plan a trip"] "llama3.1").2 =
      (true, some [userMsg "Plan a trip"], some "llama3.1") :=
  save_load_round_trip emptyDB "Trip Planning" [userMsg "Plan a trip"]
    "llama3.1" (by simp [emptyDB])

/-- Claim C2: a dispatched user message in plain mode appends the user
message to the sequence before the backend is called (the backend receives
the sequence with the user message already appended), exactly one
assistant message is appended afterwards, so the turn grows the sequence
by exactly 2; and when the backend call fails, the prior history is
unchanged, the user message is the last-but-one entry and the appended
assistant message is the degraded reply instead of a propagated error. -/
theorem plain_turn_grows_by_two
    (backend : String → List Message → Except String String)
    (model : String) (messages : List Message) (prompt : String) :
    (∃ r, handleUserTurn backend model messages prompt =
        messages ++ [userMsg prompt, assistantMsg r]) ∧
    (handleUserTurn backend model messages prompt).length =
      messages.length + 2 ∧
    (∀ e, backend model (messages ++ [userMsg prompt]) = Except.error e →
      handleUserTurn backend model messages prompt =
        messages ++ [userMsg prompt, assistantMsg degradedReply]) := by
  refine ⟨⟨get_ai_response backend (messages ++ [userMsg prompt]) model,
      by simp [handleUserTurn]⟩, by simp [handleUserTurn], ?_⟩
  intro e he
  simp [handleUserTurn, get_ai_response, he]

/-- Witness for C2: a concrete failed turn appends the user message and
the degraded reply to the previous history. -/
theorem plain_turn_grows_by_two_witness :
    handleUserTurn failingBackend "llama3.1" [assistantMsg "Hi"] "hello" =
      [assistantMsg "Hi"] ++ [userMsg "hello", assistantMsg degradedReply] :=
  (plain_turn_grows_by_two failingBackend "llama3.1" [assistantMsg "Hi"]
    "hello").2.2 "ConnectionError" rfl

/-- Claim C7: `delete_chat` is a total operation on the store (no error
whether or not a row with the id exists, so a second delete is also
error-free and changes nothing), it keeps every row with a different id
and only those, and `load_chat_messages` on the deleted id afterwards
returns `(False, None, None)`. -/
theorem delete_chat_idempotent (db : DB) (chat_id : Nat) :
    delete_chat (delete_chat db chat_id) chat_id = delete_chat db chat_id ∧
    load_chat_messages (delete_chat db chat_id) chat_id =
      (false, none, none) ∧
    (∀ c ∈ db.chats, c.id ≠ chat_id → c ∈ (delete_chat db chat_id).chats) ∧
    (∀ c ∈ (delete_chat db chat_id).chats, c ∈ db.chats ∧ c.id ≠ chat_id) := by
  refine ⟨?_, ?_, ?_, ?_⟩
  · simp [delete_chat]
  · have hnone : ((delete_chat db chat_id).chats).find?
        (fun c => c.id == chat_id) = none := by
      refine List.find?_eq_none.mpr fun c hc => ?_
      have := (List.mem_filter.mp hc).2
      simp only [bne_iff_ne, ne_eq] at this
      simpa using this
    simp [load_chat_messages, hnone]
  · intro c hc hne
    exact List.mem_filter.mpr ⟨hc, by simpa using hne⟩
  · intro c hc
    have := List.mem_filter.mp hc
    exact ⟨this.1, by simpa using this.2⟩

/-- Claim C10: in the non-retrieval variant, a processing pass with an
attached file whose extracted text is non-empty appends exactly one
system-role message holding the full text, with no deduplication: two
successive passes with the same file append two identical system
messages, growing the sequence by 2. -/
theorem upload_appends_system_each_pass (t : String) (ms : List Message)
    (h : t ≠ "") :
    processUpload t ms = ms ++ [systemMsg t] ∧
    processUpload t (processUpload t ms) =
      ms ++ [systemMsg t, systemMsg t] ∧
    (processUpload t (processUpload t ms)).length = ms.length + 2 := by
  have hb : (t != "") = true := by simpa using h
  refine ⟨by simp [processUpload, hb], ?_, ?_⟩
  · simp [processUpload, hb]
  · simp [processUpload, hb]

/-- Witness for C10: two passes with a concrete non-empty file text on a
concrete history append two identical system messages. -/
theorem upload_appends_system_each_pass_witness :
    processUpload "print(1)" [userMsg "hi"] =
      [userMsg "hi"] ++ [systemMsg "print(1)"] ∧
    processUpload "print(1)" (processUpload "print(1)" [userMsg "hi"]) =
      [userMsg "hi"] ++ [systemMsg "print(1)", systemMsg "print(1)"] ∧
    (processUpload "print(1)"
      (processUpload "print(1)" [userMsg "hi"])).length =
      [userMsg "hi"].length + 2 :=
  upload_appends_system_each_pass "print(1)" [userMsg "hi"] (by decide)

/-- Counterexample to C3 as stated: with retrieval active and a failing
query backend, the turn does not complete with the degraded reply — the
exception escapes the handler (`query_engine.query(prompt)` stands in no
try block) and only the user message was appended. -/
theorem rag_turn_fault_cex :
    handleUserTurnRag failingQuery okBackend true "llama3.1" [] "hi" =
      { messages := [userMsg "hi"], propagated := some "index fault" } := by
  rfl

/-- Claim C3 amended: in RETRIEVAL-ACTIVE state a retrieval query fault
propagates out of the turn as an unhandled exception; the user message
remains appended but no assistant message — degraded or otherwise — is
added. The degraded-reply containment applies only to the plain path,
whose `get_ai_response` owns the try block. -/
theorem rag_turn_fault_propagates (queryBackend : String → Except String String)
    (backend : String → List Message → Except String String)
    (model : String) (messages : List Message) (prompt : String) (e : String)
    (h : queryBackend prompt = Except.error e) :
    handleUserTurnRag queryBackend backend true model messages prompt =
      { messages := messages ++ [userMsg prompt], propagated := some e } := by
  simp [handleUserTurnRag, h]

/-- Witness for the amended C3: a concrete failing query aborts the turn
with the user message appended and the fault propagated. -/
theorem rag_turn_fault_propagates_witness :
    handleUserTurnRag failingQuery okBackend true "gemma2"
      [assistantMsg "prev"] "question" =
      { messages := [assistantMsg "prev"] ++ [userMsg "question"],
        propagated := some "index fault" } :=
  rag_turn_fault_propagates failingQuery okBackend "gemma2"
    [assistantMsg "prev"] "question" "index fault" rfl

/-- Counterexample to C4 as stated: an injected storage fault during
startup initialization is not re-raised to the caller of
`initialize_database` — the except clause only logs — so startup
continues normally (`Except.ok`) with the schema still missing. -/
theorem startup_fault_swallowed_cex :
    initialize_database true emptyDB = Except.ok emptyDB ∧
    emptyDB.chatsTableExists = false ∧
    emptyDB.settingsTableExists = false := by
  exact ⟨rfl, rfl, rfl⟩

/-- Claim C4 amended: `create_database` is idempotent — it sets the table
flags (CREATE TABLE IF NOT EXISTS), touches no chat row, appends the
`default_model` row only when the key is absent and leaves the settings
unchanged when it is present — and it re-raises a storage fault to its
own caller; but the app-level `initialize_database` wrapper catches that
exception and only logs it, so startup does not abort and continues with
the schema as the failed call left it. -/
theorem startup_initialization_behavior (db : DB) :
    createDB (createDB db) = createDB db ∧
    (createDB db).chats = db.chats ∧
    (settingsLookup db.settings "default_model" = none →
      (createDB db).settings =
        db.settings ++ [("default_model", "llama3.1")]) ∧
    (∀ v, settingsLookup db.settings "default_model" = some v →
      (createDB db).settings = db.settings) ∧
    create_database true db = Except.error "sqlite3.Error" ∧
    initialize_database true db = Except.ok db := by
  refine ⟨?_, rfl, ?_, ?_, rfl, rfl⟩
  · obtain ⟨kv0, hkv⟩ :=
      insertOrIgnore_find db.settings "default_model" "llama3.1"
    simp [createDB, insertOrIgnore_of_find _ _ _ _ hkv]
  · intro hnone
    have : db.settings.find? (fun kv => kv.1 == "default_model") = none := by
      unfold settingsLookup at hnone
      cases h : db.settings.find? (fun kv => kv.1 == "default_model") with
      | some kv0 => rw [h] at hnone; simp at hnone
      | none => rfl
    simp [createDB, insertOrIgnoreSetting, this]
  · intro v hv
    have : ∃ kv0, db.settings.find? (fun kv => kv.1 == "default_model") =
        some kv0 := by
      unfold settingsLookup at hv
      cases h : db.settings.find? (fun kv => kv.1 == "default_model") with
      | some kv0 => exact ⟨kv0, rfl⟩
      | none => rw [h] at hv; simp at hv
    obtain ⟨kv0, hkv⟩ := this
    simp [createDB, insertOrIgnore_of_find _ _ _ _ hkv]

/-- Counterexample to C5 as stated: on a storage state whose
`default_model` row holds the empty string, `get_default_model` returns
that empty string verbatim — not a valid, non-empty identifier and not
the fallback. -/
theorem get_default_model_empty_cex :
    get_default_model false emptyValueDB = "" := by
  rfl

/-- Claim C5 amended: `get_default_model` never raises (its except clause
returns instead of re-raising, so it is a total function into String); on
a storage fault or an absent settings row it returns the hardcoded
fallback `llama3.1`, which is non-empty; and when the row is present and
no fault occurs it returns the stored value verbatim — so the result is
non-empty exactly when the stored value is. -/
theorem get_default_model_fallback (fault : Bool) (db : DB) :
    (fault = true → get_default_model fault db = DEFAULT_MODEL) ∧
    (settingsLookup db.settings "default_model" = none →
      get_default_model fault db = DEFAULT_MODEL) ∧
    (∀ v, fault = false →
      settingsLookup db.settings "default_model" = some v →
      get_default_model fault db = v) ∧
    DEFAULT_MODEL ≠ "" := by
  refine ⟨?_, ?_, ?_, by decide⟩
  · intro hf
    simp [get_default_model, hf]
  · intro hnone
    cases fault with
    | true => rfl
    | false => simp [get_default_model, hnone]
  · intro v hf hv
    simp [get_default_model, hf, hv]

/-- Claim C6, the code evaluated at the failing input: attach a document,
remove it, attach another. `clear_index` re-fetches the
`@st.cache_resource`-cached `VectorStoreIndex` — the same mutated object —
so the first document survives the removal and the second attach leaves
the index holding two documents while `use_rag` is `True`, violating the
claimed "retrieval mode active iff exactly one inserted document". -/
theorem rag_index_retained_bug :
    (runRag initialRagState attachDetachAttach).use_rag = true ∧
    (runRag initialRagState attachDetachAttach).indexDocs =
      ["doc1", "doc2"] := by
  exact ⟨rfl, rfl⟩

/-- Claim C8: with the store initialized (so the settings row exists) and
the stored default read back as `llama3.1`, selecting `gemma2` differs
from the default, `set_default_model "gemma2"` runs, and a fresh session —
which re-runs `create_database` and then reads the default — gets
`gemma2`: the change is durably persisted. -/
theorem model_change_persists (db : DB)
    (h : get_default_model false (createDB db) = "llama3.1") :
    ("gemma2" != get_default_model false (createDB db)) = true ∧
    get_default_model false
      (createDB (set_default_model (createDB db) "gemma2")) = "gemma2" := by
  obtain ⟨kv0, hkv⟩ :=
    insertOrIgnore_find db.settings "default_model" "llama3.1"
  have hkv2 : (createDB db).settings.find?
      (fun kv => kv.1 == "default_model") = some kv0 := hkv
  have hupd := find_update (createDB db).settings "default_model" "gemma2"
    kv0 hkv2
  refine ⟨by simp [h], ?_⟩
  have hs2 : (set_default_model (createDB db) "gemma2").settings.find?
      (fun kv => kv.1 == "default_model") = some (kv0.1, "gemma2") := hupd
  have hcreate2 : (createDB (set_default_model (createDB db) "gemma2")).settings
      = (set_default_model (createDB db) "gemma2").settings :=
    insertOrIgnore_of_find _ "default_model" "llama3.1" (kv0.1, "gemma2") hs2
  have hlook : settingsLookup
      (createDB (set_default_model (createDB db) "gemma2")).settings
      "default_model" = some "gemma2" := by
    unfold settingsLookup
    rw [hcreate2, hs2]
    rfl
  simp [get_default_model, hlook]

/-- Witness for C8: the full flow from a fresh database file. -/
theorem model_change_persists_witness :
    ("gemma2" != get_default_model false (createDB emptyDB)) = true ∧
    get_default_model false
      (createDB (set_default_model (createDB emptyDB) "gemma2")) =
      "gemma2" :=
  model_change_persists emptyDB rfl

/-- Claim C9: when the stored `default_model` is neither of the two
supported identifiers, the startup render itself overwrites it: the
selector falls back to displaying "Llama 3.1", the resolved model
`llama3.1` differs from the stored default, and `set_default_model`
replaces the stored value with `llama3.1` without any user action. -/
theorem startup_overwrites_invalid_default (db : DB) (d : String)
    (hd : settingsLookup db.settings "default_model" = some d)
    (h1 : d ≠ "llama3.1") (h2 : d ≠ "gemma2") :
    displayNameFor d = "Llama 3.1" ∧
    modelForDisplay (displayNameFor d) ≠ d ∧
    settingsLookup (startupModelSync db).settings "default_model" =
      some "llama3.1" := by
  have hkv : ∃ kv0, db.settings.find? (fun kv => kv.1 == "default_model") =
      some kv0 := by
    unfold settingsLookup at hd
    cases h : db.settings.find? (fun kv => kv.1 == "default_model") with
    | some kv0 => exact ⟨kv0, rfl⟩
    | none => rw [h] at hd; simp at hd
  obtain ⟨kv0, hkv⟩ := hkv
  have hb1 : (("llama3.1" : String) == d) = false := by
    simpa using Ne.symm h1
  have hb2 : (("gemma2" : String) == d) = false := by
    simpa using Ne.symm h2
  have hdisp : displayNameFor d = "Llama 3.1" := by
    simp [displayNameFor, MODEL_MAPPING, hb1, hb2]
  have hsel : modelForDisplay (displayNameFor d) = "llama3.1" := by
    rw [hdisp]; rfl
  refine ⟨hdisp, by rw [hsel]; exact Ne.symm h1, ?_⟩
  have hget : get_default_model false db = d := by
    simp [get_default_model, hd]
  have hupd := find_update db.settings "default_model" "llama3.1" kv0 hkv
  have hne : (("llama3.1" : String) != d) = true := by
    simpa using Ne.symm h1
  have hrun : startupModelSync db = set_default_model db "llama3.1" := by
    simp only [startupModelSync]
    rw [hget, hdisp]
    have hsel2 : modelForDisplay "Llama 3.1" = "llama3.1" := rfl
    rw [hsel2, hne]
    simp
  rw [hrun]
  unfold settingsLookup
  have : (set_default_model db "llama3.1").settings =
      db.settings.map
        (fun kv => if kv.1 == "default_model" then (kv.1, "llama3.1") else kv) :=
    rfl
  rw [this, hupd]
  rfl

/-- Witness for C9: a stored default of `mistral` is replaced by
`llama3.1` during the startup render. -/
theorem startup_overwrites_invalid_default_witness :
    displayNameFor "mistral" = "Llama 3.1" ∧
    modelForDisplay (displayNameFor "mistral") ≠ "mistral" ∧
    settingsLookup (startupModelSync invalidDefaultDB).settings
      "default_model" = some "llama3.1" :=
  startup_overwrites_invalid_default invalidDefaultDB "mistral" rfl
    (by decide) (by decide)

end LaamaChat
